import Mathlib

/-!
MulticopterSim: dynamics state container, joystick polling, PID bridge.

A shallow embedding of

* `Source/MulticopterSim/dynamics/NewMultirotorDynamics.hpp` (class `MultirotorDynamics`),
* `Source/MulticopterSim/joystick/JoystickWindows.cpp` (`getAxes`, `getButtons`,
  `getButtonsExtra`, `Joystick::Joystick`, `Joystick::poll`),
* `NengoPidController.hpp` (the constructor's argument tuple).

Conventions.  C++ `double` and `float` values are read as rationals, so every
arithmetic step is exact.  `DWORD` and `uint8_t` values are natural numbers; the
code only compares them, masks them and converts them to `float`.  A C array
parameter `double a[3]` is a function `Fin 3 → ℚ`.  Reference parameters and
function-local statics are passed in and returned explicitly.
-/

/-! ## NewMultirotorDynamics.hpp -/

/-- The force terms `U1, U2, U3, U4, Omega` that `update` holds in local variables. -/
structure ForceTerms where
  U1 : ℚ
  U2 : ℚ
  U3 : ℚ
  U4 : ℚ
  Omega : ℚ
deriving DecidableEq, Repr

/-- The four output arrays of `getState`. -/
structure StateOutputs where
  angularVelocity : Fin 3 → ℚ
  eulerAngles : Fin 3 → ℚ
  velocityXYZ : Fin 3 → ℚ
  positionXYZ : Fin 3 → ℚ

/-- The pure-virtual interface a vehicle subclass supplies: the eight constants and
`getForces`, which receives its five reference parameters and returns their new values. -/
structure Vehicle where
  b : ℚ
  d : ℚ
  m : ℚ
  l : ℚ
  Ix : ℚ
  Iy : ℚ
  Iz : ℚ
  Jr : ℚ
  getForces : ForceTerms → ForceTerms

/-- The private data members of `MultirotorDynamics` (`_x`, `_xd`, ..., `_airborne`). -/
structure MultirotorDynamics where
  x : ℚ
  xd : ℚ
  xdd : ℚ
  y : ℚ
  yd : ℚ
  ydd : ℚ
  z : ℚ
  zd : ℚ
  zdd : ℚ
  phi : ℚ
  phid : ℚ
  phidd : ℚ
  theta : ℚ
  thetad : ℚ
  thetadd : ℚ
  psi : ℚ
  psid : ℚ
  psidd : ℚ
  airborne : Bool

namespace MultirotorDynamics

/-- The default member initialisers: every variable `0`, `_airborne = false`. -/
def fresh : MultirotorDynamics :=
  { x := 0, xd := 0, xdd := 0, y := 0, yd := 0, ydd := 0, z := 0, zd := 0, zdd := 0,
    phi := 0, phid := 0, phidd := 0, theta := 0, thetad := 0, thetadd := 0,
    psi := 0, psid := 0, psidd := 0, airborne := false }

/-- Earth's gravitational constant, `static constexpr double G = 9.80665`. -/
def G : ℚ := 9.80665

/-- The fallback `static constexpr double M_PI = 3.14159265358979323846`. -/
def M_PI : ℚ := 3.14159265358979323846

/-- `rps(motorval, maxrpm)`: `return motorval * maxrpm * M_PI / 30;`. -/
def rps (motorval maxrpm : ℚ) : ℚ :=
  motorval * maxrpm * M_PI / 30

/-- `init(position, rotation, airborne)`: the nineteen assignments, in source order. -/
def init (position rotation : Fin 3 → ℚ) (airborne : Bool)
    (s : MultirotorDynamics) : MultirotorDynamics :=
  let s := { s with xd := 0 }
  let s := { s with xdd := 0 }
  let s := { s with yd := 0 }
  let s := { s with ydd := 0 }
  let s := { s with zd := 0 }
  let s := { s with zdd := 0 }
  let s := { s with phid := 0 }
  let s := { s with phidd := 0 }
  let s := { s with thetad := 0 }
  let s := { s with thetadd := 0 }
  let s := { s with psid := 0 }
  let s := { s with psidd := 0 }
  let s := { s with x := position 0 }
  let s := { s with y := position 1 }
  let s := { s with z := position 2 }
  let s := { s with phi := rotation 0 }
  let s := { s with theta := rotation 1 }
  let s := { s with psi := rotation 2 }
  { s with airborne := airborne }

/-- The initial values `double U1 = 0; ... double Omega = 0;` of the locals of `update`. -/
def zeroForces : ForceTerms :=
  { U1 := 0, U2 := 0, U3 := 0, U4 := 0, Omega := 0 }

/-- `update(dt)`: the locals start at `0`, `getForces` fills them, then
`U1 *= b(); U2 *= b(); U3 *= b(); U4 *= d();`.  The body assigns no data member.
The result is the state after the call together with the locals at the end of the body. -/
def update (veh : Vehicle) (_dt : ℚ) (s : MultirotorDynamics) :
    MultirotorDynamics × ForceTerms :=
  let u := zeroForces
  let u := veh.getForces u
  let u := { u with U1 := u.U1 * veh.b }
  let u := { u with U2 := u.U2 * veh.b }
  let u := { u with U3 := u.U3 * veh.b }
  let u := { u with U4 := u.U4 * veh.d }
  (s, u)

/-- The state after the calls `update(dt_1); ...; update(dt_n)` in this order. -/
def updates (veh : Vehicle) (dts : List ℚ) (s : MultirotorDynamics) : MultirotorDynamics :=
  dts.foldl (fun acc dt => (update veh dt acc).1) s

/-- `getState(angularVelocity, eulerAngles, velocityXYZ, positionXYZ)`: the body is
empty, so the four arrays come back as they went in. -/
def getState (_s : MultirotorDynamics) (out : StateOutputs) : StateOutputs :=
  out

/-- A vehicle whose `getForces` leaves all five terms at zero (all motors at `0`). -/
def idleVehicle : Vehicle :=
  { b := 1, d := 1, m := 1, l := 1, Ix := 1, Iy := 1, Iz := 1, Jr := 1,
    getForces := fun _ => zeroForces }

end MultirotorDynamics

/-! ## JoystickWindows.cpp -/

/-- The case labels of the `switch (_productId)` in `Joystick::poll`.  Their numeric
values live in `Joystick.h`; only their distinctness matters to `poll`.  A product id
with no case label is `unlisted pid`, where `pid = 0` means no device was found. -/
inductive Product where
  | SPEKTRUM
  | TARANIS
  | PS3_CLONE
  | PS4
  | F310
  | XBOX360
  | XBOX360_CLONE
  | XBOX360_CLONE2
  | EXTREMEPRO3D
  | REALFLIGHT_INTERLINK
  | unlisted (pid : Nat)
deriving DecidableEq, Repr

/-- The values of `Joystick::error_t` that `poll` returns. -/
inductive JoystickError where
  | ERROR_NOERROR
  | ERROR_MISSING
  | ERROR_PRODUCT
deriving DecidableEq, Repr

/-- The fields of `JOYINFOEX` that `poll` reads after `joyGetPosEx`. -/
structure JoyState where
  dwXpos : Nat
  dwYpos : Nat
  dwZpos : Nat
  dwRpos : Nat
  dwUpos : Nat
  dwVpos : Nat
  dwButtons : Nat
deriving DecidableEq, Repr

/-- The data members of `Joystick` that the constructor sets and `poll` uses. -/
structure Joystick where
  productId : Product
  isRcTransmitter : Bool
  inGimbalMode : Bool
  joystickId : Nat
deriving DecidableEq, Repr

/-- `getAxes`: stores the five readings, converted to `float`, in `axes[0..4]`;
`axes[5]` is not written. -/
def getAxes (axes : Fin 6 → ℚ) (axis0 axis1 axis2 axis3 axis4 : Nat) : Fin 6 → ℚ :=
  ![(axis0 : ℚ), (axis1 : ℚ), (axis2 : ℚ), (axis3 : ℚ), (axis4 : ℚ), axes 5]

/-- `getButtons`: sets `buttonState` to 0, 1 or 2 when `dwButtons` is one of the three
button codes, and leaves it alone otherwise. -/
def getButtons (dwButtons : Nat) (buttonState : Nat) (button0 button1 button2 : Nat) : Nat :=
  if dwButtons = button0 then 0
  else if dwButtons = button1 then 1
  else if dwButtons = button2 then 2
  else buttonState

/-- What one call of `getButtonsExtra` leaves behind: the two reference parameters and
the function-local `static bool button3WasDown`. -/
structure ButtonsExtra where
  buttonState : Nat
  inGimbalMode : Bool
  button3WasDown : Bool
deriving DecidableEq, Repr

/-- `getButtonsExtra`, with the static `button3WasDown` as the first argument. -/
def getButtonsExtra (button3WasDown : Bool) (dwButtons : Nat) (buttonState : Nat)
    (button0 button1 button2 button3 : Nat) (inGimbalMode : Bool) : ButtonsExtra :=
  if dwButtons = button3 then
    let inGimbalMode := if !button3WasDown then !inGimbalMode else inGimbalMode
    { buttonState := buttonState, inGimbalMode := inGimbalMode, button3WasDown := true }
  else
    let buttonState :=
      if dwButtons = button0 then 0
      else if dwButtons = button1 then 1
      else if dwButtons = button2 then 2
      else buttonState
    { buttonState := buttonState, inGimbalMode := inGimbalMode, button3WasDown := false }

/-- The arguments of one call of `getButtonsExtra`. -/
structure ButtonsExtraCall where
  dwButtons : Nat
  buttonState : Nat
  button0 : Nat
  button1 : Nat
  button2 : Nat
  button3 : Nat
  inGimbalMode : Bool
deriving DecidableEq, Repr

/-- One call of `getButtonsExtra` on a packed argument record. -/
def ButtonsExtraCall.run (wasDown : Bool) (c : ButtonsExtraCall) : ButtonsExtra :=
  getButtonsExtra wasDown c.dwButtons c.buttonState c.button0 c.button1 c.button2 c.button3
    c.inGimbalMode

/-- The value of the static `button3WasDown` after a sequence of calls; it is
zero-initialised, so it is `false` before the first call. -/
def button3WasDownAfter (calls : List ButtonsExtraCall) : Bool :=
  calls.foldl (fun wasDown c => (c.run wasDown).button3WasDown) false

/-- `Joystick::Joystick`: takes the first of the ids `0..15` for which `joyGetDevCaps`
succeeds (here: returns the product id `wPid`), and marks Taranis and Spektrum as
R/C transmitters.  With no device the id stays `16` and the product id `0`. -/
def Joystick.create (joyGetDevCaps : Nat → Option Product) : Joystick :=
  match (List.range 16).find? (fun k => (joyGetDevCaps k).isSome) with
  | some k =>
    match joyGetDevCaps k with
    | some pid =>
      { productId := pid,
        isRcTransmitter := decide (pid = Product.TARANIS) || decide (pid = Product.SPEKTRUM),
        inGimbalMode := false, joystickId := k }
    | none =>
      { productId := Product.unlisted 0, isRcTransmitter := false, inGimbalMode := false,
        joystickId := 16 }
  | none =>
    { productId := Product.unlisted 0, isRcTransmitter := false, inGimbalMode := false,
      joystickId := 16 }

/-- The outcome of `Joystick::poll`: the returned code, the two output parameters, the
object afterwards and the static of `getButtonsExtra`. -/
structure PollResult where
  error : JoystickError
  axes : Fin 6 → ℚ
  buttonState : Nat
  joystick : Joystick
  button3WasDown : Bool

/-- The loop `for k < 5: axes[k] = axes[k] / 32767 - 1`. -/
def normalizeAxes (axes : Fin 6 → ℚ) : Fin 6 → ℚ :=
  fun k => if k.val < 5 then axes k / 32767 - 1 else axes k

/-- The block `axes[0] = -axes[0]; axes[2] = -axes[2];`. -/
def invertAxes (axes : Fin 6 → ℚ) : Fin 6 → ℚ :=
  fun k => if k = 0 ∨ k = 2 then -(axes k) else axes k

/-- The tail of `poll` after the `switch`: normalise, invert axes 0 and 2 unless the
device is an R/C transmitter, return `ERROR_NOERROR`. -/
def pollFinish (js : Joystick) (axes : Fin 6 → ℚ) (buttonState : Nat) (wasDown : Bool) :
    PollResult :=
  let axes := normalizeAxes axes
  let axes := if !js.isRcTransmitter then invertAxes axes else axes
  { error := JoystickError.ERROR_NOERROR, axes := axes, buttonState := buttonState,
    joystick := js, button3WasDown := wasDown }

/-- `Joystick::poll`.  `joyState` is what `joyGetPosEx` delivered, `rescaleAxis` is the
helper from `Joystick.h` (used for the RealFlight InterLink only), `wasDown` the static
of `getButtonsExtra`. -/
def Joystick.poll (rescaleAxis : ℚ → ℚ → ℚ → ℚ) (js : Joystick) (joyState : JoyState)
    (axes : Fin 6 → ℚ) (buttonState : Nat) (wasDown : Bool) : PollResult :=
  match js.productId with
  | Product.SPEKTRUM =>
    let axes := getAxes axes joyState.dwYpos joyState.dwZpos joyState.dwVpos joyState.dwXpos
      joyState.dwUpos
    let js := { js with inGimbalMode := decide (joyState.dwButtons &&& 1 = 0) }
    pollFinish js axes buttonState wasDown
  | Product.TARANIS =>
    let axes := getAxes axes joyState.dwXpos joyState.dwYpos joyState.dwZpos joyState.dwVpos
      joyState.dwRpos
    pollFinish js axes buttonState wasDown
  | Product.PS3_CLONE | Product.PS4 =>
    let axes := getAxes axes joyState.dwYpos joyState.dwZpos joyState.dwRpos joyState.dwXpos 0
    let buttonState := getButtons joyState.dwButtons buttonState 1 2 4
    pollFinish js axes buttonState wasDown
  | Product.F310 =>
    let axes := getAxes axes joyState.dwYpos joyState.dwZpos joyState.dwRpos joyState.dwXpos 0
    let r := getButtonsExtra wasDown joyState.dwButtons buttonState 8 4 2 1 js.inGimbalMode
    pollFinish { js with inGimbalMode := r.inGimbalMode } axes r.buttonState r.button3WasDown
  | Product.XBOX360 | Product.XBOX360_CLONE | Product.XBOX360_CLONE2 =>
    let axes := getAxes axes joyState.dwYpos joyState.dwUpos joyState.dwRpos joyState.dwXpos 0
    let r := getButtonsExtra wasDown joyState.dwButtons buttonState 8 2 1 4 js.inGimbalMode
    pollFinish { js with inGimbalMode := r.inGimbalMode } axes r.buttonState r.button3WasDown
  | Product.EXTREMEPRO3D =>
    let axes := getAxes axes joyState.dwZpos joyState.dwXpos joyState.dwYpos joyState.dwRpos 0
    let buttonState := getButtons joyState.dwButtons buttonState 1 2 4
    pollFinish js axes buttonState wasDown
  | Product.REALFLIGHT_INTERLINK =>
    let axes := getAxes axes joyState.dwZpos joyState.dwXpos joyState.dwYpos joyState.dwRpos 0
    let axes := Function.update axes 0 (rescaleAxis (axes 0) 13161 51336)
    let axes := Function.update axes 1 (rescaleAxis (axes 1) 12623 55342)
    let axes := Function.update axes 2 (rescaleAxis (axes 2) 13698 51335)
    let axes := Function.update axes 3 (rescaleAxis (axes 3) 11818 55159)
    let js := { js with inGimbalMode := decide (joyState.dwButtons &&& 1 = 0) }
    let buttonState := getButtons (joyState.dwButtons &&& 254) buttonState 10 2 18
    pollFinish js axes buttonState wasDown
  | Product.unlisted pid =>
    { error := if pid ≠ 0 then JoystickError.ERROR_PRODUCT else JoystickError.ERROR_MISSING,
      axes := axes, buttonState := buttonState, joystick := js, button3WasDown := wasDown }

/-- A device table with a single PS4 pad at id `0`. -/
def onlyPS4 (k : Nat) : Option Product :=
  if k = 0 then some Product.PS4 else none

/-- A reading with the X axis at the top of the 16-bit range and all else at `0`. -/
def xAxisFull : JoyState :=
  { dwXpos := 65535, dwYpos := 0, dwZpos := 0, dwRpos := 0, dwUpos := 0, dwVpos := 0,
    dwButtons := 0 }

/-! ## NengoPidController.hpp -/

/-- The Python objects the constructor creates: `PyFloat_FromDouble` and
`PyLong_FromLong` results. -/
inductive PyObject where
  | pyFloat (v : ℚ)
  | pyLong (v : ℤ)
deriving DecidableEq, Repr

/-- `PyFloat_FromDouble`. -/
def PyFloat_FromDouble (v : ℚ) : PyObject := PyObject.pyFloat v

/-- `PyLong_FromLong`. -/
def PyLong_FromLong (v : ℤ) : PyObject := PyObject.pyLong v

/-- `PyTuple_New(n)`: a tuple of `n` empty slots. -/
def PyTuple_New (n : Nat) : List (Option PyObject) := List.replicate n none

/-- `PyTuple_SetItem(t, i, o)`: stores `o` in slot `i`. -/
def PyTuple_SetItem (t : List (Option PyObject)) (i : Nat) (o : PyObject) :
    List (Option PyObject) :=
  t.set i (some o)

/-- The tuple `pArgs` that the constructor of `NengoPidController` builds and passes to
`PyObject_CallObject`. -/
def NengoPidController.pArgs (Kp Kd _Ki : ℚ) (n_dims : ℤ) (sim_time : ℚ) (n_neurons : ℤ)
    (integral_synapse integral_radius : ℚ) : List (Option PyObject) :=
  let pArgs := PyTuple_New 8
  let pArgs := PyTuple_SetItem pArgs 0 (PyFloat_FromDouble Kp)
  let pArgs := PyTuple_SetItem pArgs 1 (PyFloat_FromDouble Kd)
  let pArgs := PyTuple_SetItem pArgs 2 (PyFloat_FromDouble Kd)
  let pArgs := PyTuple_SetItem pArgs 3 (PyLong_FromLong n_dims)
  let pArgs := PyTuple_SetItem pArgs 4 (PyFloat_FromDouble sim_time)
  let pArgs := PyTuple_SetItem pArgs 5 (PyLong_FromLong n_neurons)
  let pArgs := PyTuple_SetItem pArgs 6 (PyFloat_FromDouble integral_synapse)
  let pArgs := PyTuple_SetItem pArgs 7 (PyFloat_FromDouble integral_radius)
  pArgs

/-! ## Properties of the dynamics state container -/

namespace MultirotorDynamics

/-- A call of `update` returns the state it was given. -/
theorem update_state (veh : Vehicle) (dt : ℚ) (s : MultirotorDynamics) :
    (update veh dt s).1 = s := rfl

/-- Any number of `update` calls returns the state they started from. -/
theorem updates_state (veh : Vehicle) (dts : List ℚ) (s : MultirotorDynamics) :
    updates veh dts s = s := by
  induction dts generalizing s with
  | nil => rfl
  | cons dt rest ih =>
    show updates veh rest (update veh dt s).1 = s
    rw [update_state, ih]

/-- C1: `init(p, r, a)` applied to any prior state sets the position to `p`, the
orientation to `r`, all six first and all six second derivatives to `0`, and the
airborne flag to `a`. -/
theorem init_sets_pose_and_zeroes_derivatives (s : MultirotorDynamics)
    (p r : Fin 3 → ℚ) (a : Bool) :
    ((init p r a s).x = p 0 ∧ (init p r a s).y = p 1 ∧ (init p r a s).z = p 2) ∧
    ((init p r a s).phi = r 0 ∧ (init p r a s).theta = r 1 ∧ (init p r a s).psi = r 2) ∧
    ((init p r a s).xd = 0 ∧ (init p r a s).yd = 0 ∧ (init p r a s).zd = 0 ∧
      (init p r a s).phid = 0 ∧ (init p r a s).thetad = 0 ∧ (init p r a s).psid = 0) ∧
    ((init p r a s).xdd = 0 ∧ (init p r a s).ydd = 0 ∧ (init p r a s).zdd = 0 ∧
      (init p r a s).phidd = 0 ∧ (init p r a s).thetadd = 0 ∧ (init p r a s).psidd = 0) ∧
    (init p r a s).airborne = a :=
  ⟨⟨rfl, rfl, rfl⟩, ⟨rfl, rfl, rfl⟩, ⟨rfl, rfl, rfl, rfl, rfl, rfl⟩,
    ⟨rfl, rfl, rfl, rfl, rfl, rfl⟩, rfl⟩

/-- C2 (the code at the failing input): after `init((1,2,3), (4,5,6), false)` a call of
`getState` on four zeroed arrays leaves `positionXYZ` and `eulerAngles` at zero, while
the live state holds `x = 1` and `phi = 4`; the outputs are not the live state. -/
theorem getState_leaves_outputs_untouched :
    (getState (init ![1, 2, 3] ![4, 5, 6] false fresh)
        ⟨![0, 0, 0], ![0, 0, 0], ![0, 0, 0], ![0, 0, 0]⟩).positionXYZ 0 = 0 ∧
    (getState (init ![1, 2, 3] ![4, 5, 6] false fresh)
        ⟨![0, 0, 0], ![0, 0, 0], ![0, 0, 0], ![0, 0, 0]⟩).eulerAngles 0 = 0 ∧
    (init ![1, 2, 3] ![4, 5, 6] false fresh).x = 1 ∧
    (init ![1, 2, 3] ![4, 5, 6] false fresh).phi = 4 ∧
    (getState (init ![1, 2, 3] ![4, 5, 6] false fresh)
        ⟨![0, 0, 0], ![0, 0, 0], ![0, 0, 0], ![0, 0, 0]⟩).positionXYZ 0 ≠
      (init ![1, 2, 3] ![4, 5, 6] false fresh).x := by
  refine ⟨rfl, rfl, rfl, rfl, ?_⟩
  show (0 : ℚ) ≠ 1
  norm_num

/-- C3 (the code at the failing input): after `init((0,0,0), (0,0,0), airborne = true)`
and one `update(0.001)` with all-zero forces the stored `zdd` is `0`, which is
`9.80665` away from `-G`. -/
theorem update_leaves_zdd_zero :
    idleVehicle.getForces zeroForces = zeroForces ∧
    (update idleVehicle (1 / 1000) (init ![0, 0, 0] ![0, 0, 0] true fresh)).1.zdd = 0 ∧
    (update idleVehicle (1 / 1000) (init ![0, 0, 0] ![0, 0, 0] true fresh)).1.zdd ≠ -G ∧
    |(update idleVehicle (1 / 1000) (init ![0, 0, 0] ![0, 0, 0] true fresh)).1.zdd - -G|
      = 9.80665 := by
  refine ⟨rfl, rfl, ?_, ?_⟩
  · show (0 : ℚ) ≠ -G
    norm_num [G]
  · show |(0 : ℚ) - -G| = 9.80665
    norm_num [G]

/-- C4: after `init(p, r, airborne = false)` and any sequence of `update(dt_i)` calls in
which `getForces` reports all-zero forces, `x = p[0]`, `y = p[1]`, `xd = 0`, `yd = 0`. -/
theorem zero_input_horizontal_unchanged (veh : Vehicle) (s0 : MultirotorDynamics)
    (p r : Fin 3 → ℚ) (dts : List ℚ)
    (_hzero : veh.getForces zeroForces = zeroForces) :
    (updates veh dts (init p r false s0)).x = p 0 ∧
    (updates veh dts (init p r false s0)).y = p 1 ∧
    (updates veh dts (init p r false s0)).xd = 0 ∧
    (updates veh dts (init p r false s0)).yd = 0 := by
  rw [updates_state]
  exact ⟨rfl, rfl, rfl, rfl⟩

/-- Witness of C4: the idle vehicle, three steps from position `(1,2,3)`. -/
theorem zero_input_horizontal_unchanged_witness :
    idleVehicle.getForces zeroForces = zeroForces ∧
    ((updates idleVehicle [1 / 1000, 1 / 100, 1 / 1000]
        (init ![1, 2, 3] ![0, 0, 0] false fresh)).x = (![1, 2, 3] : Fin 3 → ℚ) 0 ∧
     (updates idleVehicle [1 / 1000, 1 / 100, 1 / 1000]
        (init ![1, 2, 3] ![0, 0, 0] false fresh)).y = (![1, 2, 3] : Fin 3 → ℚ) 1 ∧
     (updates idleVehicle [1 / 1000, 1 / 100, 1 / 1000]
        (init ![1, 2, 3] ![0, 0, 0] false fresh)).xd = 0 ∧
     (updates idleVehicle [1 / 1000, 1 / 100, 1 / 1000]
        (init ![1, 2, 3] ![0, 0, 0] false fresh)).yd = 0) :=
  ⟨rfl, zero_input_horizontal_unchanged idleVehicle fresh ![1, 2, 3] ![0, 0, 0]
    [1 / 1000, 1 / 100, 1 / 1000] rfl⟩

/-- C5: `init` is idempotent: a second `init(p, r, a)` on the state the first one
produced gives that same state, all eighteen variables and the flag included. -/
theorem init_idempotent (s : MultirotorDynamics) (p r : Fin 3 → ℚ) (a : Bool) :
    init p r a (init p r a s) = init p r a s := rfl

/-- C6: `rps(v, r) = v * r * pi / 30` with `pi = 3.14159265358979323846`, for all
rational `v` and `r` with no clamping, so it is linear in `v`. -/
theorem rps_formula_and_linear (v r : ℚ) :
    rps v r = v * r * (3.14159265358979323846 : ℚ) / 30 ∧
    (∀ c w : ℚ, rps (c * v + w) r = c * rps v r + rps w r) := by
  refine ⟨rfl, ?_⟩
  intro c w
  simp only [rps]
  ring

/-- C7: the force terms at the end of `update` are `U1*b`, `U2*b`, `U3*b`, `U4*d` and
the unscaled `Omega`, where `(U1, U2, U3, U4, Omega)` is what `getForces` reported. -/
theorem update_scales_forces (veh : Vehicle) (dt : ℚ) (s : MultirotorDynamics) :
    (update veh dt s).2 =
      { U1 := (veh.getForces zeroForces).U1 * veh.b,
        U2 := (veh.getForces zeroForces).U2 * veh.b,
        U3 := (veh.getForces zeroForces).U3 * veh.b,
        U4 := (veh.getForces zeroForces).U4 * veh.d,
        Omega := (veh.getForces zeroForces).Omega } := rfl

end MultirotorDynamics

/-! ## Properties of the joystick helpers -/

/-- Whatever the static held before, after a call it records whether that call's
`dwButtons` equalled its `button3`. -/
theorem ButtonsExtraCall.run_wasDown (wasDown : Bool) (c : ButtonsExtraCall) :
    (c.run wasDown).button3WasDown = decide (c.dwButtons = c.button3) := by
  unfold ButtonsExtraCall.run getButtonsExtra
  by_cases h : c.dwButtons = c.button3 <;> simp [h]

/-- Before the first call the static is `false`. -/
theorem button3WasDownAfter_nil : button3WasDownAfter [] = false := rfl

/-- After a non-empty sequence of calls the static records whether the last call's
`dwButtons` equalled its `button3`. -/
theorem button3WasDownAfter_concat (pre : List ButtonsExtraCall) (q : ButtonsExtraCall) :
    button3WasDownAfter (pre ++ [q]) = decide (q.dwButtons = q.button3) := by
  unfold button3WasDownAfter
  rw [List.foldl_append]
  exact ButtonsExtraCall.run_wasDown _ q

/-- The static is `false` exactly when there was no preceding call or the preceding
call's `dwButtons` differed from its `button3`. -/
theorem button3WasDownAfter_eq_false (pre : List ButtonsExtraCall) :
    button3WasDownAfter pre = false ↔ ∀ q ∈ pre.getLast?, q.dwButtons ≠ q.button3 := by
  rcases List.eq_nil_or_concat pre with h | ⟨front, q, h⟩
  · subst h
    simp [button3WasDownAfter_nil]
  · subst h
    rw [List.concat_eq_append, button3WasDownAfter_concat]
    simp

/-- C9: in any sequence of calls of `getButtonsExtra` (the static `button3WasDown`
starting `false`), a call flips `inGimbalMode` exactly when its `dwButtons` equals
`button3` and the immediately preceding call's did not (or there was none); every
other call leaves `inGimbalMode` unchanged; and every call with `dwButtons` equal to
`button3` leaves `buttonState` unchanged.  Here `pre` is the list of earlier calls and
`c` the call under consideration. -/
theorem getButtonsExtra_toggles_on_rising_edge (pre : List ButtonsExtraCall)
    (c : ButtonsExtraCall) :
    ((c.run (button3WasDownAfter pre)).inGimbalMode = (!c.inGimbalMode) ↔
      (c.dwButtons = c.button3 ∧ ∀ q ∈ pre.getLast?, q.dwButtons ≠ q.button3)) ∧
    (¬ (c.dwButtons = c.button3 ∧ ∀ q ∈ pre.getLast?, q.dwButtons ≠ q.button3) →
      (c.run (button3WasDownAfter pre)).inGimbalMode = c.inGimbalMode) ∧
    (c.dwButtons = c.button3 →
      (c.run (button3WasDownAfter pre)).buttonState = c.buttonState) := by
  rw [← button3WasDownAfter_eq_false]
  unfold ButtonsExtraCall.run getButtonsExtra
  by_cases h : c.dwButtons = c.button3
  · cases hw : button3WasDownAfter pre <;> simp [h]
  · simp [h]

/-- C8 (the code at the failing input): a PS4 pad whose X axis reads `65535`.  `poll`
returns `ERROR_NOERROR` and the rudder demand `axes[3]` is `65535 / 32767 - 1 =
32768 / 32767`, which is greater than `1`. -/
theorem poll_demand_exceeds_one :
    (Joystick.create onlyPS4).productId = Product.PS4 ∧
    (Joystick.create onlyPS4).isRcTransmitter = false ∧
    xAxisFull.dwXpos ≤ 65535 ∧
    ((Joystick.create onlyPS4).poll (fun a _ _ => a) xAxisFull (fun _ => 0) 0 false).error
      = JoystickError.ERROR_NOERROR ∧
    ((Joystick.create onlyPS4).poll (fun a _ _ => a) xAxisFull (fun _ => 0) 0 false).axes 3
      = 32768 / 32767 ∧
    1 < ((Joystick.create onlyPS4).poll (fun a _ _ => a) xAxisFull (fun _ => 0) 0 false).axes 3
    := by
  have hjs : Joystick.create onlyPS4 =
      { productId := Product.PS4, isRcTransmitter := false, inGimbalMode := false,
        joystickId := 0 } := by decide
  have hax : ((Joystick.create onlyPS4).poll (fun a _ _ => a) xAxisFull
      (fun _ => 0) 0 false).axes 3 = 32768 / 32767 := by
    rw [hjs]
    have h3 : ((3 : Fin 6) : ℕ) < 5 := by decide
    simp [Joystick.poll, pollFinish, normalizeAxes, invertAxes, getAxes, xAxisFull, h3]
    norm_num
  refine ⟨by rw [hjs], by rw [hjs], by decide, by rw [hjs]; rfl, hax, ?_⟩
  rw [hax]
  norm_num

/-! ## Properties of the PID bridge -/

/-- C10 (the code at the failing input): with `Kp = 1`, `Kd = 2`, `Ki = 3` the tuple
holds `Kp` and `Kd` in slots 0 and 1 but `Kd = 2` again in slot 2, not `Ki = 3`; slots
3 to 7 hold the remaining parameters in declaration order. -/
theorem pArgs_slot2_holds_Kd :
    NengoPidController.pArgs 1 2 3 1 (1 / 1000) 100 (1 / 10) 1 =
      [some (PyObject.pyFloat 1), some (PyObject.pyFloat 2), some (PyObject.pyFloat 2),
       some (PyObject.pyLong 1), some (PyObject.pyFloat (1 / 1000)),
       some (PyObject.pyLong 100), some (PyObject.pyFloat (1 / 10)),
       some (PyObject.pyFloat 1)] ∧
    (NengoPidController.pArgs 1 2 3 1 (1 / 1000) 100 (1 / 10) 1)[2]? ≠
      some (some (PyObject.pyFloat 3)) := by
  constructor
  · rfl
  · simp [NengoPidController.pArgs, PyTuple_New, PyTuple_SetItem, PyFloat_FromDouble,
      PyLong_FromLong]
